import Mathlib

/-!
Shallow embedding of the pg-mcp-server query-metadata analyzer
(server/tools/viz.py) and schema-introspection accessors
(server/resources/schema.py), with theorems settling the claims about them.

Database I/O (asyncpg prepare/fetchval/fetchrow, sqlglot parsing) is
modelled as explicit environment parameters keyed by the exact query
strings the code constructs, so that the theorems quantify over every
possible behaviour of the external systems while the repository's own
logic is translated literally.
-/

namespace PgMcp

/-- JSON values (the JSON-safe structures the server returns).
Numbers carry an exact rational; IEEE-754 rounding of Python floats is
abstracted to the exact value, which no claim depends on. -/
inductive Json where
  | null
  | bool (b : Bool)
  | num (q : Rat)
  | str (s : String)
  | arr (elems : List Json)
  | obj (fields : List (String × Json))
deriving Repr

/-- Top-level key list of a JSON object (empty for non-objects). -/
def jsonKeys : Json → List String
  | .obj kvs => kvs.map Prod.fst
  | _ => []

/-- Python runtime values that can reach json.dumps / default_serializer:
dates and datetimes carry their calendar fields, Decimal carries
mantissa and decimal scale (value = mantissa / 10^scale), UUID carries
its 16 bytes, bytes carries its byte list, and pyOther carries the
string repr that str() would produce for any other object. -/
inductive Py where
  | pyInt (n : Int)
  | pyStr (s : String)
  | pyNone
  | pyDate (y m d : Nat)
  | pyDatetime (y m d hh mi ss : Nat)
  | pyDecimal (mantissa : Int) (scale : Nat)
  | pyUuid (bytes16 : List Nat)
  | pyBytes (bs : List Nat)
  | pyOther (shown : String)
deriving Repr, DecidableEq

/-- Zero-padded 2-digit decimal rendering. -/
def pad2 (n : Nat) : String :=
  if n < 10 then "0" ++ toString n else toString n

/-- Zero-padded 4-digit decimal rendering. -/
def pad4 (n : Nat) : String :=
  if n < 10 then "000" ++ toString n
  else if n < 100 then "00" ++ toString n
  else if n < 1000 then "0" ++ toString n
  else toString n

/-- date.isoformat(): YYYY-MM-DD. -/
def dateIso (y m d : Nat) : String :=
  pad4 y ++ "-" ++ pad2 m ++ "-" ++ pad2 d

/-- datetime.isoformat() (microseconds and tz offset elided):
YYYY-MM-DDTHH:MM:SS. -/
def datetimeIso (y m d hh mi ss : Nat) : String :=
  dateIso y m d ++ "T" ++ pad2 hh ++ ":" ++ pad2 mi ++ ":" ++ pad2 ss

/-- The eight low hexadecimal digit characters. -/
def hexCharsLow : List Char := ['0', '1', '2', '3', '4', '5', '6', '7']

/-- The eight high lowercase hexadecimal digit characters. -/
def hexCharsHigh : List Char := ['8', '9', 'a', 'b', 'c', 'd', 'e', 'f']

/-- The sixteen lowercase hexadecimal digit characters. -/
def hexChars : List Char := hexCharsLow ++ hexCharsHigh

/-- Lowercase hex digit for n mod 16. -/
def hexDigitChar (n : Nat) : Char :=
  hexChars.getD (n % 16) '0'

/-- Two lowercase hex digits of a byte. -/
def byteHexChars (b : Nat) : List Char :=
  [hexDigitChar (b / 16), hexDigitChar b]

/-- Insert the 8-4-4-4-12 hyphens into a 32-char hex string. -/
def hyphenate (l : List Char) : List Char :=
  l.take 8 ++ '-' :: (l.drop 8).take 4 ++ '-' :: (l.drop 12).take 4
    ++ '-' :: (l.drop 16).take 4 ++ '-' :: l.drop 20

/-- str(uuid.UUID): 32 lowercase hex digits in 8-4-4-4-12 groups. -/
def uuidStr (bytes16 : List Nat) : String :=
  String.mk (hyphenate (bytes16.flatMap byteHexChars))

/-- repr quote character for a bytes object: double quote only when the
bytes contain a single quote and no double quote. -/
def bytesQuote (bs : List Nat) : Char :=
  if bs.contains 39 && !(bs.contains 34) then '"' else '\''

/-- One byte of a Python bytes repr: backslash, the active quote, tab,
newline and carriage return are escaped, printable ASCII is literal,
everything else becomes a lowercase hex escape. -/
def byteReprChars (q : Char) (b : Nat) : List Char :=
  if b = 92 then ['\\', '\\']
  else if b = q.toNat then ['\\', q]
  else if b = 9 then ['\\', 't']
  else if b = 10 then ['\\', 'n']
  else if b = 13 then ['\\', 'r']
  else if 32 ≤ b && b ≤ 126 then [Char.ofNat b]
  else ['\\', 'x', hexDigitChar (b / 16), hexDigitChar b]

/-- str(bytes) = repr(bytes) in Python 3. -/
def bytesReprStr (bs : List Nat) : String :=
  let q := bytesQuote bs
  String.mk ('b' :: q :: bs.flatMap (byteReprChars q) ++ [q])

/-- str(Decimal) in plain decimal notation (only reachable through the
fallback branch of the serializer, which never sees a Decimal). -/
def decimalStr (mantissa : Int) (scale : Nat) : String :=
  if scale = 0 then toString mantissa
  else toString mantissa ++ "E-" ++ toString scale

/-- Python str() on the values above. -/
def pythonStr : Py → String
  | .pyInt n => toString n
  | .pyStr s => s
  | .pyNone => "None"
  | .pyDate y m d => dateIso y m d
  | .pyDatetime y m d hh mi ss => datetimeIso y m d hh mi ss
  | .pyDecimal mantissa scale => decimalStr mantissa scale
  | .pyUuid bytes16 => uuidStr bytes16
  | .pyBytes bs => bytesReprStr bs
  | .pyOther shown => shown

/-- A JSON-safe scalar as produced by default_serializer: either a
number (Python float) or a string. -/
inductive JsonVal where
  | jnum (q : Rat)
  | jstr (s : String)
deriving Repr, DecidableEq

/-- Exact rational value of a Decimal; float(Decimal) rounding to the
nearest binary64 is abstracted to the exact value. -/
def decimalToRat (mantissa : Int) (scale : Nat) : Rat :=
  (mantissa : Rat) / ((10 : Rat) ^ scale)

/-- viz.py default_serializer: datetime/date to isoformat string,
Decimal to float, everything else to str(obj). -/
def default_serializer : Py → JsonVal
  | .pyDatetime y m d hh mi ss => .jstr (datetimeIso y m d hh mi ss)
  | .pyDate y m d => .jstr (dateIso y m d)
  | .pyDecimal mantissa scale => .jnum (decimalToRat mantissa scale)
  | v => .jstr (pythonStr v)

/-- Base64 alphabet. -/
def b64Alphabet : List Char :=
  ['A', 'B', 'C', 'D', 'E', 'F', 'G', 'H', 'I', 'J', 'K', 'L', 'M',
   'N', 'O', 'P', 'Q', 'R', 'S', 'T', 'U', 'V', 'W', 'X', 'Y', 'Z',
   'a', 'b', 'c', 'd', 'e', 'f', 'g', 'h', 'i', 'j', 'k', 'l', 'm',
   'n', 'o', 'p', 'q', 'r', 's', 't', 'u', 'v', 'w', 'x', 'y', 'z',
   '0', '1', '2', '3', '4', '5', '6', '7', '8', '9', '+', '/']

/-- Base64 digit for n mod 64. -/
def b64Char (n : Nat) : Char :=
  b64Alphabet.getD (n % 64) 'A'

/-- Standard base64 of a byte list (the encoding the spec says binary
blobs map to; defined from the spec side for comparison with the code's
serializer). -/
def base64Encode : List Nat → String
  | [] => ""
  | [a] =>
      String.mk [b64Char (a / 4), b64Char (a % 4 * 16), '=', '=']
  | [a, b] =>
      String.mk [b64Char (a / 4), b64Char (a % 4 * 16 + b / 16),
                 b64Char (b % 16 * 4), '=']
  | a :: b :: c :: rest =>
      String.mk [b64Char (a / 4), b64Char (a % 4 * 16 + b / 16),
                 b64Char (b % 16 * 4 + c / 64), b64Char (c % 64)]
        ++ base64Encode rest

/-- ASCII lowercasing of one character (type names are ASCII). -/
def asciiLower (c : Char) : Char :=
  if 65 ≤ c.toNat ∧ c.toNat ≤ 90 then Char.ofNat (c.toNat + 32) else c

/-- str.lower() on an ASCII string. -/
def lowerStr (s : String) : String :=
  String.mk (s.data.map asciiLower)

/-- viz.py pg_type_to_logical, applied to the PostgreSQL type's name
(lowercased first, as in the source). -/
def pg_type_to_logical (pgTypeName : String) : String :=
  if ["int", "int4", "int8", "float4", "float8", "numeric", "decimal",
      "double precision"].contains (lowerStr pgTypeName) then "quantitative"
  else if ["date", "timestamp", "timestamptz"].contains (lowerStr pgTypeName) then
    "temporal"
  else "nominal"

/-- Python str.strip() whitespace test (ASCII whitespace). -/
def pyIsSpace (c : Char) : Bool :=
  c = ' ' || c = '\t' || c = '\n' || c = '\r' || c = '\x0b' || c = '\x0c'

/-- Python str.strip(): drop whitespace from both ends. -/
def pyStrip (s : String) : String :=
  String.mk (((s.data.dropWhile pyIsSpace).reverse.dropWhile pyIsSpace).reverse)

/-- viz.py get_query_metadata sanitization: strip surrounding
whitespace, then remove one trailing semicolon when present. -/
def sanitize (sqlQuery : String) : String :=
  let s := pyStrip sqlQuery
  if s.data.getLast? = some ';' then String.mk s.data.dropLast else s

/-- One described column of the prepared statement: col.name and
col.type.name. -/
structure ColumnAttr where
  name : String
  pgTypeName : String
deriving Repr, DecidableEq

/-- One expression of the parsed statement's GROUP BY clause: either an
exp.Column carrying its name, or any other expression kind. -/
inductive GroupItem where
  | col (name : String)
  | other
deriving Repr, DecidableEq

/-- The abstract syntax features the analyzer reads off the parse:
the contents of ast.args group (empty when no GROUP BY clause). -/
structure SqlAst where
  group : List GroupItem
deriving Repr, DecidableEq

/-- The acquired database connection, modelled by the outcome of each
operation on each query string: none models a raised exception; for
fetchrow the inner Option models a None / falsy record. -/
structure DbConn where
  prepareCols : String → Option (List ColumnAttr)
  fetchval : String → Option Int
  fetchrow : String → Option (Option (Py × Py))

/-- Metadata entry for one field: unique and range are JSON keys only
when present. -/
structure FieldMeta where
  name : String
  type : String
  unique : Option Int
  range : Option (Py × Py)
deriving Repr, DecidableEq

/-- The metadata dictionary get_query_metadata builds. -/
structure QueryMetadata where
  fields : List FieldMeta
  rowCount : Int
  groupBy : List String
deriving Repr, DecidableEq

/-- The COUNT(DISTINCT col) stat query string built for nominal
columns. -/
def distinctQuery (colName sql : String) : String :=
  "SELECT COUNT(DISTINCT " ++ colName ++ ") FROM (" ++ sql ++ ") AS subq"

/-- The MIN/MAX stat query string built for temporal columns. -/
def minMaxQuery (colName sql : String) : String :=
  "SELECT MIN(" ++ colName ++ "), MAX(" ++ colName ++ ") FROM (" ++ sql
    ++ ") AS subq"

/-- The row-count query string. -/
def countQuery (sql : String) : String :=
  "SELECT COUNT(*) FROM (" ++ sql ++ ") AS subq"

/-- Names of the exp.Column items of a GROUP BY clause (the list
comprehension over group_exprs). -/
def groupColNames (items : List GroupItem) : List String :=
  items.filterMap fun g =>
    match g with
    | .col n => some n
    | .other => none

/-- The Parse stage: on a successful parse with a truthy group list,
collect the column names; on parse failure the exception is logged and
groupBy stays at its empty default. -/
def parseGroupBy (res : Option SqlAst) : List String :=
  match res with
  | some ast => if ast.group.isEmpty then [] else groupColNames ast.group
  | none => []

/-- The range attached from a fetchrow outcome: present only when the
query did not raise and the record is truthy. -/
def rangeFromRow : Option (Option (Py × Py)) → Option (Py × Py)
  | some (some p) => some p
  | _ => none

/-- The loop body for one described column: classify, then attach the
stat the classification calls for, dropping it when the stat query
raises (and for range also when the fetched record is falsy). -/
def fieldFor (conn : DbConn) (sql : String) (col : ColumnAttr) : FieldMeta :=
  let lt := pg_type_to_logical col.pgTypeName
  { name := col.name
    type := lt
    unique :=
      if lt = "nominal" then conn.fetchval (distinctQuery col.name sql)
      else none
    range :=
      if lt = "temporal" then rangeFromRow (conn.fetchrow (minMaxQuery col.name sql))
      else none }

/-- viz.py get_query_metadata, up to JSON encoding: none models the
call raising (only conn.prepare failure escapes the function; parse,
stat and row-count failures are swallowed). -/
def get_query_metadata_struct (parseOne : String → Option SqlAst)
    (conn : DbConn) (sqlQuery : String) : Option QueryMetadata :=
  let sql := sanitize sqlQuery
  let gb := parseGroupBy (parseOne sql)
  match conn.prepareCols sql with
  | none => none
  | some cols =>
      some
        { fields := cols.map (fieldFor conn sql)
          rowCount := (conn.fetchval (countQuery sql)).getD 0
          groupBy := gb }

/-- json.dumps on a value inside the metadata: natively serializable
values directly, others through default_serializer. -/
def pyJson : Py → Json
  | .pyInt n => .num n
  | .pyStr s => .str s
  | .pyNone => .null
  | v =>
      match default_serializer v with
      | .jnum q => .num q
      | .jstr s => .str s

/-- One field entry as a JSON object, keys in dict insertion order. -/
def fieldJson (f : FieldMeta) : Json :=
  .obj
    ([("name", .str f.name), ("type", .str f.type)]
      ++ (match f.unique with
          | some n => [("unique", Json.num n)]
          | none => [])
      ++ (match f.range with
          | some p => [("range", Json.arr [pyJson p.1, pyJson p.2])]
          | none => []))

/-- The metadata dictionary as a JSON object. -/
def metadataJson (m : QueryMetadata) : Json :=
  .obj
    [("fields", .arr (m.fields.map fieldJson)),
     ("rowCount", .num m.rowCount),
     ("groupBy", .arr (m.groupBy.map Json.str))]

/-- JSON string escaping for quote and backslash (control characters
elided; none occur in the values at hand). -/
def jsonStrEscape (s : String) : String :=
  String.mk
    (s.data.flatMap fun c =>
      if c = '"' then ['\\', '"']
      else if c = '\\' then ['\\', '\\']
      else [c])

/-- A quoted JSON string literal. -/
def jsonStrLit (s : String) : String :=
  "\"" ++ jsonStrEscape s ++ "\""

/-- Rendering of a JSON number (integers exactly; the fractional case
is rendered as an exact ratio, abstracting float decimal notation). -/
def ratRender (q : Rat) : String :=
  if q.den = 1 then toString q.num
  else toString q.num ++ "/" ++ toString q.den

mutual

/-- Serialization of a JSON value to text (modelling json.dumps up to
insignificant whitespace). -/
def jsonEncode : Json → String
  | .null => "null"
  | .bool b => if b then "true" else "false"
  | .num q => ratRender q
  | .str s => jsonStrLit s
  | .arr xs => "[" ++ jsonEncodeElems xs ++ "]"
  | .obj kvs => "\x7b" ++ jsonEncodePairs kvs ++ "\x7d"

/-- Comma-separated serialization of array elements. -/
def jsonEncodeElems : List Json → String
  | [] => ""
  | [x] => jsonEncode x
  | x :: y :: rest => jsonEncode x ++ ", " ++ jsonEncodeElems (y :: rest)

/-- Comma-separated serialization of object members. -/
def jsonEncodePairs : List (String × Json) → String
  | [] => ""
  | [(k, v)] => jsonStrLit k ++ ": " ++ jsonEncode v
  | (k, v) :: p :: rest =>
      jsonStrLit k ++ ": " ++ jsonEncode v ++ ", " ++ jsonEncodePairs (p :: rest)

end

/-- viz.py get_query_metadata: the returned value is the JSON-encoded
string of the metadata dictionary. -/
def get_query_metadata (parseOne : String → Option SqlAst) (conn : DbConn)
    (sqlQuery : String) : Option String :=
  (get_query_metadata_struct parseOne conn sqlQuery).map
    fun m => jsonEncode (metadataJson m)

/-- schema.py get_database: rows are the result of the delegated canned
query, each row a mapping from column name to its JSON-typed value. -/
def get_database (rows : List (String → Json)) : Json :=
  match rows with
  | [] => .obj [("schemas", .arr [])]
  | r :: _ => r "db_structure"

/-- schema.py get_schema. -/
def get_schema (rows : List (String → Json)) : Json :=
  match rows with
  | [] => .obj [("schema", .arr [])]
  | r :: _ => r "schema_info"

/-- schema.py get_schema_table. -/
def get_schema_table (rows : List (String → Json)) : Json :=
  match rows with
  | [] => .obj [("table", .obj [])]
  | r :: _ => r "table_details"

/-- schema.py get_schema_view. -/
def get_schema_view (rows : List (String → Json)) : Json :=
  match rows with
  | [] => .obj [("materialized_view", .obj [])]
  | r :: _ => r "view_details"

/-- The spec's classification by type family, written from the spec's
words: integer, floating and numeric families are quantitative; date
and timestamp families are temporal; everything else is nominal. -/
def specLogicalType (pgTypeName : String) : String :=
  let t := lowerStr pgTypeName
  if ["int2", "smallint", "int4", "int", "integer", "int8", "bigint",
      "float4", "real", "float8", "double precision", "numeric",
      "decimal"].contains t then "quantitative"
  else if ["date", "timestamp", "timestamptz",
           "timestamp with time zone",
           "timestamp without time zone"].contains t then "temporal"
  else "nominal"

/-! ### Concrete runs used as witnesses -/

/-- Concrete run for the GROUP BY example. -/
def sqlEx2 : String := "SELECT a, COUNT(*) FROM t GROUP BY a"

/-- Parse outcome of the GROUP BY example: one Column item named a. -/
def astEx2 : SqlAst := ⟨[GroupItem.col "a"]⟩

/-- sqlglot outcome environment for the GROUP BY example. -/
def parseEx2 : String → Option SqlAst := fun _ => some astEx2

/-- Described columns of the GROUP BY example. -/
def colsEx2 : List ColumnAttr := [⟨"a", "text"⟩, ⟨"count", "int8"⟩]

/-- Connection environment for the GROUP BY example (stat and count
queries all raise). -/
def connEx2 : DbConn := ⟨fun _ => some colsEx2, fun _ => none, fun _ => none⟩

/-- Resulting metadata of the GROUP BY example. -/
def mEx2 : QueryMetadata :=
  ⟨[⟨"a", "nominal", none, none⟩, ⟨"count", "quantitative", none, none⟩], 0, ["a"]⟩

/-- Concrete run for the parse-failure example. -/
def sqlEx3 : String := "SELECT x FROM t"

/-- Described columns of the parse-failure example. -/
def colsEx3 : List ColumnAttr := [⟨"x", "text"⟩]

/-- Connection environment for the parse-failure example. -/
def connEx3 : DbConn := ⟨fun _ => some colsEx3, fun _ => some 3, fun _ => none⟩

/-- Concrete run for the stats example: a nominal and a temporal
column, distinct-count and row-count queries raising, min/max
succeeding. -/
def sqlEx6 : String := "SELECT c, d FROM t"

/-- Described columns of the stats example. -/
def colsEx6 : List ColumnAttr := [⟨"c", "text"⟩, ⟨"d", "date"⟩]

/-- The nominal column of the stats example. -/
def colEx6 : ColumnAttr := ⟨"c", "text"⟩

/-- Connection environment of the stats example. -/
def connEx6 : DbConn :=
  ⟨fun _ => some colsEx6, fun _ => none,
   fun _ => some (some (.pyDate 2024 1 1, .pyDate 2024 12 31))⟩

/-- Resulting metadata of the stats example. -/
def mEx6 : QueryMetadata :=
  ⟨[⟨"c", "nominal", none, none⟩,
    ⟨"d", "temporal", none, some (.pyDate 2024 1 1, .pyDate 2024 12 31)⟩],
   0, []⟩

/-- Concrete run for the row-count example: the count query raises. -/
def connEx7 : DbConn := ⟨fun _ => some [⟨"x", "int4"⟩], fun _ => none, fun _ => none⟩

/-- Resulting metadata of the row-count example: rowCount left at 0. -/
def mEx7 : QueryMetadata := ⟨[⟨"x", "quantitative", none, none⟩], 0, []⟩

/-- Concrete run for the output-shape example: parse fails, the
prepared statement describes no columns, the count query raises. -/
def connEx9 : DbConn := ⟨fun _ => some [], fun _ => none, fun _ => none⟩

/-! ### Shared helper lemmas -/

/-- When prepare succeeds the analysis always completes, with the three
parts computed independently. -/
theorem struct_of_prepared (parseOne : String → Option SqlAst) (conn : DbConn)
    (sqlQuery : String) (cols : List ColumnAttr)
    (hp : conn.prepareCols (sanitize sqlQuery) = some cols) :
    get_query_metadata_struct parseOne conn sqlQuery =
      some
        { fields := cols.map (fieldFor conn (sanitize sqlQuery))
          rowCount := (conn.fetchval (countQuery (sanitize sqlQuery))).getD 0
          groupBy := parseGroupBy (parseOne (sanitize sqlQuery)) } := by
  simp [get_query_metadata_struct, hp]

/-- On a successful parse the extracted names are exactly the column
items of the GROUP BY clause (the empty-clause guard is redundant). -/
theorem parseGroupBy_eq_colNames (ast : SqlAst) :
    parseGroupBy (some ast) = groupColNames ast.group := by
  cases h : ast.group with
  | nil => simp [parseGroupBy, groupColNames, h]
  | cons a l => simp [parseGroupBy, h]

/-- Hex digits land in the hex alphabet. -/
theorem hexDigitChar_mem (n : Nat) : hexDigitChar n ∈ hexChars := by
  have h : n % 16 < hexChars.length := by
    have := Nat.mod_lt n (y := 16) (by norm_num)
    simpa [hexChars] using this
  rw [hexDigitChar, List.getD_eq_getElem?_getD, List.getElem?_eq_getElem h]
  exact List.getElem_mem h

/-- Every character of a hyphenated hex list is from the source list or
a hyphen. -/
theorem mem_hyphenate {c : Char} {l : List Char} (h : c ∈ hyphenate l) :
    c ∈ l ∨ c = '-' := by
  simp only [hyphenate, List.mem_append, List.mem_cons, or_assoc] at h
  rcases h with h | h | h | h | h | h | h | h | h
  · exact Or.inl (List.take_subset _ _ h)
  · exact Or.inr h
  · exact Or.inl (List.drop_subset _ _ (List.take_subset _ _ h))
  · exact Or.inr h
  · exact Or.inl (List.drop_subset _ _ (List.take_subset _ _ h))
  · exact Or.inr h
  · exact Or.inl (List.drop_subset _ _ (List.take_subset _ _ h))
  · exact Or.inr h
  · exact Or.inl (List.drop_subset _ _ h)

/-- Every character of a formatted UUID is a lowercase hex digit or a
hyphen. -/
theorem uuidStr_chars (bytes16 : List Nat) :
    ((uuidStr bytes16).data.all fun c => c.isLower || c.isDigit || c == '-') = true := by
  rw [List.all_eq_true]
  intro c hc
  have hc' : c ∈ hyphenate (bytes16.flatMap byteHexChars) := hc
  rcases mem_hyphenate hc' with h | h
  · rcases List.mem_flatMap.mp h with ⟨b, _, hb⟩
    have hx : c ∈ hexChars := by
      simp only [byteHexChars, List.mem_cons, List.not_mem_nil, or_false] at hb
      rcases hb with h1 | h1
      · exact h1 ▸ hexDigitChar_mem (b / 16)
      · exact h1 ▸ hexDigitChar_mem b
    fin_cases hx <;> decide
  · subst h; decide

/-- rangeFromRow yields a value only from a successful, truthy
fetchrow. -/
theorem rangeFromRow_isSome {o : Option (Option (Py × Py))}
    (h : (rangeFromRow o).isSome = true) : ∃ p, o = some (some p) := by
  match o with
  | some (some p) => exact ⟨p, rfl⟩
  | some none => simp [rangeFromRow] at h
  | none => simp [rangeFromRow] at h

/-! ### Claims -/

/-- C1, counterexample: on the multi-statement input SELECT 1; SELECT 2;
the analyzer does not fail with any error: normalization strips only
the one trailing semicolon, keeps the interior one, and with a
connection that prepares the remaining text the analysis completes
normally, contradicting the claimed MultiStatementRejectedError
rejection. -/
theorem c1_counter :
    sanitize "SELECT 1; SELECT 2;" = "SELECT 1; SELECT 2" ∧
    get_query_metadata_struct (fun _ => none)
        ⟨fun _ => some [⟨"x", "int4"⟩], fun _ => some 2, fun _ => none⟩
        "SELECT 1; SELECT 2;" =
      some ⟨[⟨"x", "quantitative", none, none⟩], 2, []⟩ :=
  ⟨by decide, by decide⟩

/-- C1, amended: the Normalize stage strips surrounding whitespace and
exactly one trailing statement terminator when present, and nothing
else; input containing additional statement terminators is not
rejected — whenever the prepare step succeeds on the normalized text,
the analysis returns a result. -/
theorem c1_amended :
    (∀ s : String, (pyStrip s).data.getLast? = some ';' →
      (sanitize s).data = (pyStrip s).data.dropLast) ∧
    (∀ s : String, (pyStrip s).data.getLast? ≠ some ';' →
      sanitize s = pyStrip s) ∧
    (∀ (parseOne : String → Option SqlAst) (conn : DbConn) (sql : String)
        (cols : List ColumnAttr),
      conn.prepareCols (sanitize sql) = some cols →
      (get_query_metadata parseOne conn sql).isSome = true) := by
  refine ⟨?_, ?_, ?_⟩
  · intro s h
    simp [sanitize, h]
  · intro s h
    simp [sanitize, h]
  · intro parseOne conn sql cols hp
    simp [get_query_metadata, struct_of_prepared parseOne conn sql cols hp]

/-- C1, witness: the amended statement evaluated on SELECT 1; SELECT 2;
(trailing terminator stripped), on SELECT 1 (no trailing terminator,
untouched), and on a prepared multi-statement run that completes. -/
theorem c1_witness :
    ((pyStrip "SELECT 1; SELECT 2;").data.getLast? = some ';' ∧
     (sanitize "SELECT 1; SELECT 2;").data =
       (pyStrip "SELECT 1; SELECT 2;").data.dropLast) ∧
    ((pyStrip "SELECT 1").data.getLast? ≠ some ';' ∧
     sanitize "SELECT 1" = pyStrip "SELECT 1") ∧
    ((DbConn.mk (fun _ => some [⟨"x", "int4"⟩]) (fun _ => some 2)
        (fun _ => none)).prepareCols (sanitize "SELECT 1; SELECT 2;") =
        some [⟨"x", "int4"⟩] ∧
     (get_query_metadata (fun _ => none)
        (DbConn.mk (fun _ => some [⟨"x", "int4"⟩]) (fun _ => some 2)
          (fun _ => none))
        "SELECT 1; SELECT 2;").isSome = true) :=
  ⟨⟨by decide, c1_amended.1 _ (by decide)⟩,
   ⟨by decide, c1_amended.2.1 _ (by decide)⟩,
   ⟨rfl, c1_amended.2.2 _ _ _ _ rfl⟩⟩

/-- C2: when both the parse and the prepare of the normalized statement
succeed, the returned groupBy is exactly the names of the column
references appearing in the statement's GROUP BY clause. -/
theorem c2_groupby (parseOne : String → Option SqlAst) (conn : DbConn)
    (sql : String) (ast : SqlAst) (cols : List ColumnAttr) (m : QueryMetadata)
    (hparse : parseOne (sanitize sql) = some ast)
    (hp : conn.prepareCols (sanitize sql) = some cols)
    (hm : get_query_metadata_struct parseOne conn sql = some m) :
    m.groupBy = groupColNames ast.group := by
  rw [struct_of_prepared parseOne conn sql cols hp] at hm
  injection hm with h
  subst h
  show parseGroupBy (parseOne (sanitize sql)) = groupColNames ast.group
  rw [hparse, parseGroupBy_eq_colNames]

/-- C2, witness: analyzing SELECT a, COUNT(*) FROM t GROUP BY a, whose
GROUP BY clause parses to the single column a, yields groupBy == [a]. -/
theorem c2_witness :
    (parseEx2 (sanitize sqlEx2) = some astEx2 ∧
     connEx2.prepareCols (sanitize sqlEx2) = some colsEx2 ∧
     get_query_metadata_struct parseEx2 connEx2 sqlEx2 = some mEx2) ∧
    mEx2.groupBy = ["a"] :=
  ⟨⟨rfl, rfl, by decide⟩,
   c2_groupby parseEx2 connEx2 sqlEx2 astEx2 colsEx2 mEx2 rfl rfl (by decide)⟩

/-- C3: when the AST parse fails but the prepare succeeds, the analysis
still completes, with fields populated from the prepared statement's
columns, a numeric rowCount computed as usual, and groupBy empty. -/
theorem c3_parse_fail (parseOne : String → Option SqlAst) (conn : DbConn)
    (sql : String) (cols : List ColumnAttr)
    (hparse : parseOne (sanitize sql) = none)
    (hp : conn.prepareCols (sanitize sql) = some cols) :
    ∃ m, get_query_metadata_struct parseOne conn sql = some m ∧
      m.groupBy = [] ∧
      m.fields = cols.map (fieldFor conn (sanitize sql)) ∧
      m.fields.map FieldMeta.name = cols.map ColumnAttr.name ∧
      m.rowCount = (conn.fetchval (countQuery (sanitize sql))).getD 0 := by
  refine ⟨_, struct_of_prepared parseOne conn sql cols hp, ?_, rfl, ?_, rfl⟩
  · simp [hparse, parseGroupBy]
  · simp only [List.map_map]
    exact List.map_congr_left fun a _ => rfl

/-- C3, witness: a failing parse over a one-column prepared statement
still yields metadata with the one field and the fetched row count. -/
theorem c3_witness :
    ((fun _ : String => (none : Option SqlAst)) (sanitize sqlEx3) = none ∧
     connEx3.prepareCols (sanitize sqlEx3) = some colsEx3) ∧
    (∃ m, get_query_metadata_struct (fun _ => none) connEx3 sqlEx3 = some m ∧
      m.groupBy = [] ∧
      m.fields = colsEx3.map (fieldFor connEx3 (sanitize sqlEx3)) ∧
      m.fields.map FieldMeta.name = colsEx3.map ColumnAttr.name ∧
      m.rowCount = (connEx3.fetchval (countQuery (sanitize sqlEx3))).getD 0) :=
  ⟨⟨rfl, rfl⟩, c3_parse_fail (fun _ => none) connEx3 sqlEx3 colsEx3 rfl rfl⟩

/-- C4, counterexample: the serializer maps the binary blob 0x01 to the
Python repr string b'\x5cx01', which is not its base64 encoding AQ==,
refuting the claimed blob-to-base64 mapping. -/
theorem c4_counter :
    default_serializer (.pyBytes [1]) = .jstr "b'\x5cx01'" ∧
    base64Encode [1] = "AQ==" ∧
    default_serializer (.pyBytes [1]) ≠ .jstr (base64Encode [1]) :=
  ⟨by decide, by decide, by decide⟩

/-- C4, amended: the serializer is a total deterministic function;
decimals map to floating-point numbers, dates and datetimes map to
ISO-8601 strings, UUIDs map to lowercase hyphenated strings, but
binary blobs map to the str()/repr() form of the bytes object, not to
base64. -/
theorem c4_amended :
    (∀ (mantissa : Int) (scale : Nat),
      default_serializer (.pyDecimal mantissa scale) =
        .jnum (decimalToRat mantissa scale)) ∧
    (∀ y m d, default_serializer (.pyDate y m d) = .jstr (dateIso y m d)) ∧
    (∀ y m d hh mi ss,
      default_serializer (.pyDatetime y m d hh mi ss) =
        .jstr (datetimeIso y m d hh mi ss)) ∧
    (∀ bytes16, default_serializer (.pyUuid bytes16) = .jstr (uuidStr bytes16)) ∧
    (∀ bytes16,
      ((uuidStr bytes16).data.all fun c => c.isLower || c.isDigit || c == '-') =
        true) ∧
    (∀ bs, default_serializer (.pyBytes bs) = .jstr (bytesReprStr bs)) :=
  ⟨fun _ _ => rfl, fun _ _ _ => rfl, fun _ _ _ _ _ _ => rfl, fun _ => rfl,
   uuidStr_chars, fun _ => rfl⟩

/-- C5, counterexample: int2, PostgreSQL's native name for smallint —
an integer-family type — is classified nominal by the code, while the
claimed family-based classification makes it quantitative. -/
theorem c5_counter :
    pg_type_to_logical "int2" = "nominal" ∧
    specLogicalType "int2" = "quantitative" :=
  ⟨by decide, by decide⟩

/-- C5, amended: the classification is by exact lowercased type name:
quantitative for the eight names the code lists, temporal for date,
timestamp and timestamptz, nominal for everything else — including the
integer-family names int2 and smallint. -/
theorem c5_classes :
    (∀ t, pg_type_to_logical t = "quantitative" ↔
      (["int", "int4", "int8", "float4", "float8", "numeric", "decimal",
        "double precision"].contains (lowerStr t)) = true) ∧
    (∀ t, pg_type_to_logical t = "temporal" ↔
      (["int", "int4", "int8", "float4", "float8", "numeric", "decimal",
        "double precision"].contains (lowerStr t)) = false ∧
      (["date", "timestamp", "timestamptz"].contains (lowerStr t)) = true) ∧
    (∀ t, pg_type_to_logical t = "nominal" ↔
      (["int", "int4", "int8", "float4", "float8", "numeric", "decimal",
        "double precision"].contains (lowerStr t)) = false ∧
      (["date", "timestamp", "timestamptz"].contains (lowerStr t)) = false) ∧
    pg_type_to_logical "int2" = "nominal" ∧
    pg_type_to_logical "smallint" = "nominal" := by
  refine ⟨?_, ?_, ?_, by decide, by decide⟩ <;>
    intro t <;>
    unfold pg_type_to_logical <;>
    rcases hq : (["int", "int4", "int8", "float4", "float8", "numeric",
      "decimal", "double precision"].contains (lowerStr t)) <;>
    rcases ht : (["date", "timestamp", "timestamptz"].contains (lowerStr t)) <;>
    decide

/-- C6: for every nominal column the analyzer attaches as unique the
outcome of the COUNT(DISTINCT col) subquery on the exact claimed query
string, for every temporal column it attaches as range the outcome of
the MIN/MAX subquery; a raising stat query just leaves the stat
omitted, while the analysis as a whole still returns its metadata. -/
theorem c6_stats (parseOne : String → Option SqlAst) (conn : DbConn)
    (sql : String) (cols : List ColumnAttr) (m : QueryMetadata)
    (col : ColumnAttr)
    (hp : conn.prepareCols (sanitize sql) = some cols)
    (hm : get_query_metadata_struct parseOne conn sql = some m) :
    m.fields = cols.map (fieldFor conn (sanitize sql)) ∧
    (pg_type_to_logical col.pgTypeName = "nominal" →
      (fieldFor conn (sanitize sql) col).unique =
        conn.fetchval (distinctQuery col.name (sanitize sql)) ∧
      (fieldFor conn (sanitize sql) col).range = none) ∧
    (pg_type_to_logical col.pgTypeName = "temporal" →
      (fieldFor conn (sanitize sql) col).range =
        rangeFromRow (conn.fetchrow (minMaxQuery col.name (sanitize sql))) ∧
      (fieldFor conn (sanitize sql) col).unique = none) ∧
    (conn.fetchval (distinctQuery col.name (sanitize sql)) = none →
      (fieldFor conn (sanitize sql) col).unique = none) ∧
    (conn.fetchrow (minMaxQuery col.name (sanitize sql)) = none →
      (fieldFor conn (sanitize sql) col).range = none) := by
  refine ⟨?_, ?_, ?_, ?_, ?_⟩
  · rw [struct_of_prepared parseOne conn sql cols hp] at hm
    injection hm with h
    subst h
    rfl
  · intro h
    exact ⟨by simp [fieldFor, h], by simp [fieldFor, h]⟩
  · intro h
    exact ⟨by simp [fieldFor, h], by simp [fieldFor, h]⟩
  · intro h
    simp only [fieldFor]
    split
    · exact h
    · rfl
  · intro h
    simp only [fieldFor]
    split
    · rw [h]; rfl
    · rfl

/-- C6, witness: with a nominal column whose distinct-count query
raises and a temporal column whose min/max query succeeds, the
analysis completes, omitting the one stat and attaching the other. -/
theorem c6_witness :
    (connEx6.prepareCols (sanitize sqlEx6) = some colsEx6 ∧
     get_query_metadata_struct (fun _ => none) connEx6 sqlEx6 = some mEx6) ∧
    (mEx6.fields = colsEx6.map (fieldFor connEx6 (sanitize sqlEx6)) ∧
     (pg_type_to_logical colEx6.pgTypeName = "nominal" →
       (fieldFor connEx6 (sanitize sqlEx6) colEx6).unique =
         connEx6.fetchval (distinctQuery colEx6.name (sanitize sqlEx6)) ∧
       (fieldFor connEx6 (sanitize sqlEx6) colEx6).range = none) ∧
     (pg_type_to_logical colEx6.pgTypeName = "temporal" →
       (fieldFor connEx6 (sanitize sqlEx6) colEx6).range =
         rangeFromRow
           (connEx6.fetchrow (minMaxQuery colEx6.name (sanitize sqlEx6))) ∧
       (fieldFor connEx6 (sanitize sqlEx6) colEx6).unique = none) ∧
     (connEx6.fetchval (distinctQuery colEx6.name (sanitize sqlEx6)) = none →
       (fieldFor connEx6 (sanitize sqlEx6) colEx6).unique = none) ∧
     (connEx6.fetchrow (minMaxQuery colEx6.name (sanitize sqlEx6)) = none →
       (fieldFor connEx6 (sanitize sqlEx6) colEx6).range = none)) :=
  ⟨⟨rfl, by decide⟩,
   c6_stats (fun _ => none) connEx6 sqlEx6 colsEx6 mEx6 colEx6 rfl (by decide)⟩

/-- C7: the RowCount stage uses the COUNT(*) subquery on the exact
claimed query string; on success rowCount is its result and on failure
rowCount stays at its zero default, the analysis still returning. -/
theorem c7_rowcount (parseOne : String → Option SqlAst) (conn : DbConn)
    (sql : String) (cols : List ColumnAttr) (m : QueryMetadata)
    (hp : conn.prepareCols (sanitize sql) = some cols)
    (hm : get_query_metadata_struct parseOne conn sql = some m) :
    (∀ n : Int, conn.fetchval (countQuery (sanitize sql)) = some n →
      m.rowCount = n) ∧
    (conn.fetchval (countQuery (sanitize sql)) = none → m.rowCount = 0) := by
  rw [struct_of_prepared parseOne conn sql cols hp] at hm
  injection hm with h
  subst h
  constructor
  · intro n hn
    show (conn.fetchval (countQuery (sanitize sql))).getD 0 = n
    rw [hn]
    rfl
  · intro hn
    show (conn.fetchval (countQuery (sanitize sql))).getD 0 = 0
    rw [hn]
    rfl

/-- C7, witness: with a raising count query the analysis still returns
metadata and its rowCount is the zero default. -/
theorem c7_witness :
    (connEx7.prepareCols (sanitize "SELECT x FROM t") = some [⟨"x", "int4"⟩] ∧
     get_query_metadata_struct (fun _ => none) connEx7 "SELECT x FROM t" =
       some mEx7) ∧
    ((∀ n : Int,
       connEx7.fetchval (countQuery (sanitize "SELECT x FROM t")) = some n →
       mEx7.rowCount = n) ∧
     (connEx7.fetchval (countQuery (sanitize "SELECT x FROM t")) = none →
       mEx7.rowCount = 0)) :=
  ⟨⟨rfl, by decide⟩,
   c7_rowcount (fun _ => none) connEx7 "SELECT x FROM t" [⟨"x", "int4"⟩] mEx7
     rfl (by decide)⟩

/-- C8: each schema-introspection accessor returns its documented
empty-but-well-formed default on zero rows, and the single JSON-typed
column of the first row otherwise. -/
theorem c8_introspection (rows : List (String → Json)) (r : String → Json) :
    get_database [] = .obj [("schemas", .arr [])] ∧
    get_schema [] = .obj [("schema", .arr [])] ∧
    get_schema_table [] = .obj [("table", .obj [])] ∧
    get_schema_view [] = .obj [("materialized_view", .obj [])] ∧
    get_database (r :: rows) = r "db_structure" ∧
    get_schema (r :: rows) = r "schema_info" ∧
    get_schema_table (r :: rows) = r "table_details" ∧
    get_schema_view (r :: rows) = r "view_details" :=
  ⟨rfl, rfl, rfl, rfl, rfl, rfl, rfl, rfl⟩

/-- C9: whenever get_query_metadata returns, its value is the
JSON-encoded string of the metadata object, whose top level holds
exactly the keys fields, rowCount and groupBy; when every non-fatal
stage degrades and no column is described, the encoded object carries
the defaults: empty fields, zero rowCount, empty groupBy. -/
theorem c9_output_shape (parseOne : String → Option SqlAst) (conn : DbConn)
    (sql : String) (out : String)
    (h : get_query_metadata parseOne conn sql = some out) :
    ∃ m, get_query_metadata_struct parseOne conn sql = some m ∧
      out = jsonEncode (metadataJson m) ∧
      jsonKeys (metadataJson m) = ["fields", "rowCount", "groupBy"] ∧
      (parseOne (sanitize sql) = none →
        conn.prepareCols (sanitize sql) = some [] →
        conn.fetchval (countQuery (sanitize sql)) = none →
        metadataJson m =
          .obj [("fields", .arr []), ("rowCount", .num 0),
                ("groupBy", .arr [])]) := by
  unfold get_query_metadata at h
  cases hs : get_query_metadata_struct parseOne conn sql with
  | none => rw [hs] at h; simp at h
  | some m =>
      rw [hs] at h
      simp only [Option.map_some'] at h
      injection h with h
      refine ⟨m, rfl, h.symm, rfl, ?_⟩
      intro h1 h2 h3
      have hstruct := struct_of_prepared parseOne conn sql [] h2
      rw [hs] at hstruct
      injection hstruct with hm
      subst hm
      simp [metadataJson, h1, h3, parseGroupBy]

/-- C9, witness: a run where every non-fatal stage degrades returns the
JSON text of the all-defaults object. -/
theorem c9_witness :
    (get_query_metadata (fun _ => none) connEx9 "SELECT 1" =
      some "\x7b\"fields\": [], \"rowCount\": 0, \"groupBy\": []\x7d") ∧
    (∃ m, get_query_metadata_struct (fun _ => none) connEx9 "SELECT 1" =
        some m ∧
      "\x7b\"fields\": [], \"rowCount\": 0, \"groupBy\": []\x7d" =
        jsonEncode (metadataJson m) ∧
      jsonKeys (metadataJson m) = ["fields", "rowCount", "groupBy"] ∧
      ((fun _ : String => (none : Option SqlAst)) (sanitize "SELECT 1") = none →
        connEx9.prepareCols (sanitize "SELECT 1") = some [] →
        connEx9.fetchval (countQuery (sanitize "SELECT 1")) = none →
        metadataJson m =
          .obj [("fields", .arr []), ("rowCount", .num 0),
                ("groupBy", .arr [])])) :=
  ⟨by decide, c9_output_shape (fun _ => none) connEx9 "SELECT 1" _ (by decide)⟩

/-- C10: each described column contributes exactly one field entry, in
the prepared statement's column order; every entry's JSON object
starts with the keys name and type, and carries unique or range only
when the corresponding stat query succeeded (for range: returned a
truthy record). -/
theorem c10_entries (parseOne : String → Option SqlAst) (conn : DbConn)
    (sql : String) (cols : List ColumnAttr) (m : QueryMetadata)
    (col : ColumnAttr)
    (hp : conn.prepareCols (sanitize sql) = some cols)
    (hm : get_query_metadata_struct parseOne conn sql = some m) :
    m.fields = cols.map (fieldFor conn (sanitize sql)) ∧
    m.fields.map FieldMeta.name = cols.map ColumnAttr.name ∧
    m.fields.length = cols.length ∧
    (∀ f : FieldMeta, jsonKeys (fieldJson f) =
      ["name", "type"] ++ (if f.unique.isSome then ["unique"] else [])
        ++ (if f.range.isSome then ["range"] else [])) ∧
    ((fieldFor conn (sanitize sql) col).unique.isSome = true →
      (conn.fetchval (distinctQuery col.name (sanitize sql))).isSome = true) ∧
    ((fieldFor conn (sanitize sql) col).range.isSome = true →
      ∃ p, conn.fetchrow (minMaxQuery col.name (sanitize sql)) =
        some (some p)) := by
  rw [struct_of_prepared parseOne conn sql cols hp] at hm
  injection hm with h
  subst h
  refine ⟨rfl, ?_, ?_, ?_, ?_, ?_⟩
  · simp only [List.map_map]
    exact List.map_congr_left fun a _ => rfl
  · simp
  · intro f
    cases hu : f.unique <;> cases hr : f.range <;>
      simp [fieldJson, jsonKeys, hu, hr]
  · intro h
    simp only [fieldFor] at h
    by_cases hn : pg_type_to_logical col.pgTypeName = "nominal"
    · simpa [hn] using h
    · simp [hn] at h
  · intro h
    simp only [fieldFor] at h
    by_cases ht : pg_type_to_logical col.pgTypeName = "temporal"
    · rw [if_pos ht] at h
      exact rangeFromRow_isSome h
    · simp [ht] at h

/-- C10, witness: the two-column stats run keeps one ordered entry per
column; the nominal entry has no unique key because its stat query
raised, the temporal entry has a range key from its successful one. -/
theorem c10_witness :
    (connEx6.prepareCols (sanitize sqlEx6) = some colsEx6 ∧
     get_query_metadata_struct (fun _ => some ⟨[]⟩) connEx6 sqlEx6 =
       some mEx6) ∧
    (mEx6.fields = colsEx6.map (fieldFor connEx6 (sanitize sqlEx6)) ∧
     mEx6.fields.map FieldMeta.name = colsEx6.map ColumnAttr.name ∧
     mEx6.fields.length = colsEx6.length ∧
     (∀ f : FieldMeta, jsonKeys (fieldJson f) =
       ["name", "type"] ++ (if f.unique.isSome then ["unique"] else [])
         ++ (if f.range.isSome then ["range"] else [])) ∧
     ((fieldFor connEx6 (sanitize sqlEx6) colEx6).unique.isSome = true →
       (connEx6.fetchval (distinctQuery colEx6.name (sanitize sqlEx6))).isSome =
         true) ∧
     ((fieldFor connEx6 (sanitize sqlEx6) colEx6).range.isSome = true →
       ∃ p, connEx6.fetchrow (minMaxQuery colEx6.name (sanitize sqlEx6)) =
         some (some p))) :=
  ⟨⟨rfl, by decide⟩,
   c10_entries (fun _ => some ⟨[]⟩) connEx6 sqlEx6 colsEx6 mEx6 colEx6 rfl
     (by decide)⟩

end PgMcp
